import Mathlib

/-!
Shallow embedding of the DorfLife simulation core (reproduction strategies,
female mate selection, gestation, aging/combat) translated from the
JavaScript sources, together with theorems settling the specification
claims.

Modelling conventions:
* JavaScript numbers are embedded as `ℚ`; `Math.floor` is `Int.floor`.
* Fields the code tests with `typeof x === 'undefined'` or truthiness are
  `Option` values (`none` = `undefined`); helpers `jsTruthy`, `jsGtZero`,
  `jsLeZero`, `jsFalsyNum` give JavaScript truthiness/comparison semantics
  (comparisons against `undefined` are `false`).
* `Math.random()` draws are passed explicitly, either as individual `ℚ`
  arguments or as a stream `ℕ → ℚ` with a threaded counter so that the
  number and order of draws matches the source exactly.
* Distance tests `dist < r` are embedded as `dist² < r²`, which is exact
  for the non-negative radii used throughout; the one place the code uses
  the distance *value* (movement normalisation in `moveTowardsTarget`)
  takes `Math.sqrt` as an oracle parameter `sqrtQ`.
* Object identity (`===`) between agents is embedded as list-index
  identity inside a population, and weak references are stored by agent
  name (names are unique in the population, per the data-model invariants).
-/

unseal Rat.add Rat.sub Rat.mul Rat.inv

deriving instance DecidableEq for Except

namespace DorfLife

/-- JavaScript truthiness of an optional boolean field (`undefined` is falsy). -/
def jsTruthy : Option Bool → Bool
  | none => false
  | some b => b

/-- JavaScript `x > 0` where `x` may be `undefined` (then the comparison is false). -/
def jsGtZero : Option ℚ → Bool
  | none => false
  | some q => decide (0 < q)

/-- JavaScript `x <= 0` where `x` may be `undefined` (then the comparison is false). -/
def jsLeZero : Option ℚ → Bool
  | none => false
  | some q => decide (q ≤ 0)

/-- JavaScript `!x` for a numeric field: true for `undefined` and for `0`. -/
def jsFalsyNum : Option ℚ → Bool
  | none => true
  | some q => decide (q = 0)

/-- JavaScript `x < b` where `x` may be `undefined`. -/
def jsLt (a : Option ℚ) (b : ℚ) : Bool :=
  match a with
  | none => false
  | some q => decide (q < b)

/-- JavaScript `x > b` where `x` may be `undefined`. -/
def jsGt (a : Option ℚ) (b : ℚ) : Bool :=
  match a with
  | none => false
  | some q => decide (b < q)

/-- JavaScript `x >= b` where `x` may be `undefined`. -/
def jsGe (a : Option ℚ) (b : ℚ) : Bool :=
  match a with
  | none => false
  | some q => decide (b ≤ q)

/-- JavaScript `x || d` for a numeric field (`undefined` and `0` fall back to `d`). -/
def jsOrNum (a : Option ℚ) (d : ℚ) : ℚ :=
  match a with
  | none => d
  | some q => if q = 0 then d else q

/-- The five-factor personality record (the traits the engine consumes). -/
structure Personality where
  agreeableness : ℚ
  openness : ℚ
  neuroticism : ℚ
  deriving Repr, DecidableEq

/-- Combat stat multipliers assigned per agent (`dwarf.combatStats`). -/
structure CombatStats where
  attack : ℚ
  defense : ℚ
  speed : ℚ
  critChance : ℚ
  deriving Repr, DecidableEq

/-- A floating damage number effect attached to an agent
(`addDamageNumber` / `updateDamageNumbers` in LifespanCombatSystem.js). -/
structure DamageNumber where
  damage : ℤ
  x : ℚ
  y : ℚ
  timer : ℚ
  isCritical : Bool
  vx : ℚ
  vy : ℚ
  deriving Repr, DecidableEq

/-- The agent ("dwarf") record: the union of the fields the four embedded
subsystems read or write.  Fields the code guards with `typeof`/truthiness
checks are `Option`s; `guardedFemale` distinguishes `undefined`
(outer `none`) from `null` (inner `none`). -/
structure Dwarf where
  name : String
  x : ℚ
  y : ℚ
  gender : String
  isAdult : Bool
  personality : Option Personality
  reproductionStrategy : Option String
  isPregnant : Option Bool
  pregnancyTimer : Option ℚ
  reproductionCooldown : Option ℚ
  mateSeekingTimer : Option ℚ
  guardedFemale : Option (Option String)
  territoryX : Option ℚ
  territoryY : Option ℚ
  age : ℚ
  maxLifespan : ℚ
  health : Option ℚ
  maxHealth : ℚ
  combatStats : CombatStats
  attackCooldown : ℚ
  isInCombat : Bool
  combatTarget : Option String
  lastAttacker : Option String
  combatEffectTimer : ℚ
  healthBarVisible : Bool
  damageNumbers : List DamageNumber
  efficiency : Option ℚ
  isDead : Bool
  targetX : Option ℚ
  targetY : Option ℚ
  speed : Option ℚ
  task : Option String
  workTimer : ℚ
  deriving Repr, DecidableEq

/-- A blank agent used as the out-of-range default for list lookups. -/
def defaultDwarf : Dwarf where
  name := ""
  x := 0
  y := 0
  gender := ""
  isAdult := false
  personality := none
  reproductionStrategy := none
  isPregnant := none
  pregnancyTimer := none
  reproductionCooldown := none
  mateSeekingTimer := none
  guardedFemale := none
  territoryX := none
  territoryY := none
  age := 0
  maxLifespan := 0
  health := none
  maxHealth := 0
  combatStats := ⟨1, 1, 1, 1/10⟩
  attackCooldown := 0
  isInCombat := false
  combatTarget := none
  lastAttacker := none
  combatEffectTimer := 0
  healthBarVisible := false
  damageNumbers := []
  efficiency := none
  isDead := false
  targetX := none
  targetY := none
  speed := none
  task := none
  workTimer := 0

instance : Inhabited Dwarf := ⟨defaultDwarf⟩

/-! ### ReproductionConfig.js -/

/-- `ORANGE_STRATEGY` (territorial) configuration record. -/
structure OrangeCfg where
  cooldown : ℚ
  territoryRadius : ℚ
  matingDistance : ℚ
  matingChance : ℚ
  competitorDistance : ℚ
  displacementChance : ℚ
  color : String
  deriving Repr, DecidableEq

/-- `BLUE_STRATEGY` (guardian) configuration record. -/
structure BlueCfg where
  cooldown : ℚ
  guardDistance : ℚ
  matingChance : ℚ
  maxGuardRange : ℚ
  color : String
  deriving Repr, DecidableEq

/-- `YELLOW_STRATEGY` (sneaky) configuration record. -/
structure YellowCfg where
  cooldown : ℚ
  matingDistance : ℚ
  matingChance : ℚ
  guardDetectionRadius : ℚ
  hidingRange : ℚ
  color : String
  deriving Repr, DecidableEq

/-- `FEMALE_SELECTION` configuration record (thresholds and modifiers are
flattened from the nested objects of the source). -/
structure FemaleSelCfg where
  baseScore : ℚ
  randomVariance : ℚ
  agreeablenessThreshold : ℚ
  blueBonus : ℚ
  orangePenalty : ℚ
  opennessThreshold : ℚ
  yellowBonus : ℚ
  neuroticismThreshold : ℚ
  orangeBonus : ℚ
  evaluationChance : ℚ
  proximityRadius : ℚ
  deriving Repr, DecidableEq

/-- `SPATIAL` configuration record. -/
structure SpatialCfg where
  fleeTimer : ℚ
  babySpawnRadius : ℚ
  deriving Repr, DecidableEq

/-- `REPRODUCTION_CONFIG`: the full reproduction configuration object. -/
structure ReproConfig where
  MATING_SUCCESS_RATE : ℚ
  PREGNANCY_DURATION : ℚ
  MATURITY_THRESHOLD : ℚ
  FEMALE_REPRODUCTION_COOLDOWN : ℚ
  MALE_REPRODUCTION_COOLDOWN : ℚ
  MALE_STRATEGIES : List String
  ORANGE_STRATEGY : OrangeCfg
  BLUE_STRATEGY : BlueCfg
  YELLOW_STRATEGY : YellowCfg
  FEMALE_SELECTION : FemaleSelCfg
  SPATIAL : SpatialCfg
  deriving Repr, DecidableEq

/-- The default `REPRODUCTION_CONFIG` constant, field for field from
ReproductionConfig.js. -/
def REPRODUCTION_CONFIG : ReproConfig where
  MATING_SUCCESS_RATE := 7/10
  PREGNANCY_DURATION := 3600
  MATURITY_THRESHOLD := 1800
  FEMALE_REPRODUCTION_COOLDOWN := 7200
  MALE_REPRODUCTION_COOLDOWN := 3600
  MALE_STRATEGIES := ["orange", "blue", "yellow"]
  ORANGE_STRATEGY :=
    { cooldown := 300, territoryRadius := 80, matingDistance := 25
      matingChance := 2/100, competitorDistance := 60
      displacementChance := 1/10, color := "#FF6600" }
  BLUE_STRATEGY :=
    { cooldown := 240, guardDistance := 30, matingChance := 15/1000
      maxGuardRange := 40, color := "#0066FF" }
  YELLOW_STRATEGY :=
    { cooldown := 180, matingDistance := 35, matingChance := 25/1000
      guardDetectionRadius := 50, hidingRange := 100, color := "#FFFF00" }
  FEMALE_SELECTION :=
    { baseScore := 50, randomVariance := 20
      agreeablenessThreshold := 60, blueBonus := 30, orangePenalty := -10
      opennessThreshold := 70, yellowBonus := 20
      neuroticismThreshold := 40, orangeBonus := 25
      evaluationChance := 8/1000, proximityRadius := 40 }
  SPATIAL := { fleeTimer := 180, babySpawnRadius := 40 }

/-- `Number.isInteger` on the rational embedding of a JavaScript number. -/
def isIntegerQ (q : ℚ) : Bool := q.den = 1

/-- One character of `[0-9A-Fa-f]`. -/
def isHexDigitChar (c : Char) : Bool :=
  (decide ('0' ≤ c) && decide (c ≤ '9')) ||
  (decide ('A' ≤ c) && decide (c ≤ 'F')) ||
  (decide ('a' ≤ c) && decide (c ≤ 'f'))

/-- The color regex of validateStrategyConfig: a hash followed by exactly
six hex digits. -/
def isHexColor (s : String) : Bool :=
  match s.toList with
  | '#' :: rest => decide (rest.length = 6) && rest.all isHexDigitChar
  | _ => false

/-- `validateStrategyConfig` specialised to `ORANGE_STRATEGY`: the shared
checks (`cooldown`, `matingChance` positive, `matingChance` a probability,
hex color) followed by the orange-specific positive properties, in source
order.  The `typeof` checks are vacuous in the typed record embedding. -/
def validateOrangeStrategyCfg (s : OrangeCfg) : Except String Unit :=
  if s.cooldown ≤ 0 then .error "Invalid ORANGE_STRATEGY.cooldown. Must be positive number."
  else if s.matingChance ≤ 0 then .error "Invalid ORANGE_STRATEGY.matingChance. Must be positive number."
  else if 1 < s.matingChance then .error "Invalid ORANGE_STRATEGY.matingChance. Must be probability (0-1)."
  else if ¬ isHexColor s.color then .error "Invalid ORANGE_STRATEGY.color. Must be valid hex color."
  else if s.territoryRadius ≤ 0 then .error "Invalid ORANGE_STRATEGY.territoryRadius. Must be positive number."
  else if s.matingDistance ≤ 0 then .error "Invalid ORANGE_STRATEGY.matingDistance. Must be positive number."
  else if s.competitorDistance ≤ 0 then .error "Invalid ORANGE_STRATEGY.competitorDistance. Must be positive number."
  else if s.displacementChance ≤ 0 then .error "Invalid ORANGE_STRATEGY.displacementChance. Must be positive number."
  else .ok ()

/-- `validateStrategyConfig` specialised to `BLUE_STRATEGY`. -/
def validateBlueStrategyCfg (s : BlueCfg) : Except String Unit :=
  if s.cooldown ≤ 0 then .error "Invalid BLUE_STRATEGY.cooldown. Must be positive number."
  else if s.matingChance ≤ 0 then .error "Invalid BLUE_STRATEGY.matingChance. Must be positive number."
  else if 1 < s.matingChance then .error "Invalid BLUE_STRATEGY.matingChance. Must be probability (0-1)."
  else if ¬ isHexColor s.color then .error "Invalid BLUE_STRATEGY.color. Must be valid hex color."
  else if s.guardDistance ≤ 0 then .error "Invalid BLUE_STRATEGY.guardDistance. Must be positive number."
  else if s.maxGuardRange ≤ 0 then .error "Invalid BLUE_STRATEGY.maxGuardRange. Must be positive number."
  else .ok ()

/-- `validateStrategyConfig` specialised to `YELLOW_STRATEGY`. -/
def validateYellowStrategyCfg (s : YellowCfg) : Except String Unit :=
  if s.cooldown ≤ 0 then .error "Invalid YELLOW_STRATEGY.cooldown. Must be positive number."
  else if s.matingChance ≤ 0 then .error "Invalid YELLOW_STRATEGY.matingChance. Must be positive number."
  else if 1 < s.matingChance then .error "Invalid YELLOW_STRATEGY.matingChance. Must be probability (0-1)."
  else if ¬ isHexColor s.color then .error "Invalid YELLOW_STRATEGY.color. Must be valid hex color."
  else if s.matingDistance ≤ 0 then .error "Invalid YELLOW_STRATEGY.matingDistance. Must be positive number."
  else if s.guardDetectionRadius ≤ 0 then .error "Invalid YELLOW_STRATEGY.guardDetectionRadius. Must be positive number."
  else if s.hidingRange ≤ 0 then .error "Invalid YELLOW_STRATEGY.hidingRange. Must be positive number."
  else .ok ()

/-- Sequencing of two statements that can throw: the first error wins
(the JavaScript `validateStrategyConfig(...)` calls inside `validateConfig`
propagate their exception). -/
def exceptSeq (a rest : Except String Unit) : Except String Unit :=
  match a with
  | .error e => .error e
  | .ok _ => rest

/-- `validateConfig` of ReproductionConfig.js: the startup validation, with
all checks in source order.  `Array.isArray` and the `typeof ... number`
checks are vacuous in the typed record embedding. -/
def validateConfig (config : ReproConfig) : Except String Unit :=
  if config.MATING_SUCCESS_RATE ≤ 0 ∨ 1 < config.MATING_SUCCESS_RATE then
    .error "Invalid MATING_SUCCESS_RATE. Must be between 0 and 1."
  else if config.PREGNANCY_DURATION ≤ 0 ∨ ¬ isIntegerQ config.PREGNANCY_DURATION then
    .error "Invalid PREGNANCY_DURATION. Must be positive integer."
  else if config.MATURITY_THRESHOLD ≤ 0 ∨ ¬ isIntegerQ config.MATURITY_THRESHOLD then
    .error "Invalid MATURITY_THRESHOLD. Must be positive integer."
  else if config.FEMALE_REPRODUCTION_COOLDOWN ≤ 0 ∨ ¬ isIntegerQ config.FEMALE_REPRODUCTION_COOLDOWN then
    .error "Invalid cooldown at index 0. Must be positive integer."
  else if config.MALE_REPRODUCTION_COOLDOWN ≤ 0 ∨ ¬ isIntegerQ config.MALE_REPRODUCTION_COOLDOWN then
    .error "Invalid cooldown at index 1. Must be positive integer."
  else if ¬ config.MALE_STRATEGIES.length = 3 then
    .error "Invalid MALE_STRATEGIES. Must be array of exactly 3 strategies."
  else if ¬ config.MALE_STRATEGIES.contains "orange" then
    .error "Missing required strategy orange."
  else if ¬ config.MALE_STRATEGIES.contains "blue" then
    .error "Missing required strategy blue."
  else if ¬ config.MALE_STRATEGIES.contains "yellow" then
    .error "Missing required strategy yellow."
  else
    exceptSeq (validateOrangeStrategyCfg config.ORANGE_STRATEGY) <|
    exceptSeq (validateBlueStrategyCfg config.BLUE_STRATEGY) <|
    exceptSeq (validateYellowStrategyCfg config.YELLOW_STRATEGY) <|
    if config.FEMALE_SELECTION.baseScore ≤ 0 then
      .error "Invalid FEMALE_SELECTION.baseScore. Must be positive."
    else if config.FEMALE_SELECTION.randomVariance < 0 then
      .error "Invalid FEMALE_SELECTION.randomVariance. Must be non-negative."
    else if config.FEMALE_SELECTION.evaluationChance ≤ 0 ∨ 1 < config.FEMALE_SELECTION.evaluationChance then
      .error "Invalid FEMALE_SELECTION.evaluationChance. Must be between 0 and 1."
    else if config.FEMALE_SELECTION.agreeablenessThreshold < 0 ∨ 100 < config.FEMALE_SELECTION.agreeablenessThreshold then
      .error "Invalid FEMALE_SELECTION.agreeableness.threshold. Must be between 0 and 100."
    else if config.FEMALE_SELECTION.opennessThreshold < 0 ∨ 100 < config.FEMALE_SELECTION.opennessThreshold then
      .error "Invalid FEMALE_SELECTION.openness.threshold. Must be between 0 and 100."
    else if config.FEMALE_SELECTION.neuroticismThreshold < 0 ∨ 100 < config.FEMALE_SELECTION.neuroticismThreshold then
      .error "Invalid FEMALE_SELECTION.neuroticism.threshold. Must be between 0 and 100."
    else .ok ()

/-! ### ReproductionEventBus.js -/

/-- A subscribed listener of the event bus, for one topic.  The callback is
identified by `name` (standing for JavaScript function identity); running it
maps the outside state `σ` to the state after its (possibly partial)
execution together with `some e` when it threw exception `e`. -/
structure Listener (σ ε : Type) where
  name : String
  callback : σ → σ × Option ε
  once : Bool
  priority : ℤ

/-- `unsubscribe`: removes the first listener whose callback matches
(`findIndex` + `splice`). -/
def unsubscribe {σ ε : Type} (listeners : List (Listener σ ε)) (cbName : String) :
    List (Listener σ ε) :=
  match listeners.findIdx? (fun l => l.name = cbName) with
  | none => listeners
  | some i => listeners.eraseIdx i

/-- The delivery loop of `emit` over the snapshot copy of the listener list
(`[...listeners]`).  For each listener the callback runs inside try/catch:
on success a `once` listener is unsubscribed from the live list; a thrown
exception is caught and logged (so the `once` removal is skipped, matching
the source, where `unsubscribe` sits after the call inside the `try`) and
delivery continues.  Returns the final state, the live listener list and
the names of the callbacks that were invoked, in order. -/
def emitLoop {σ ε : Type} :
    List (Listener σ ε) → List (Listener σ ε) → σ → List String →
      σ × List (Listener σ ε) × List String
  | [], live, s, invoked => (s, live, invoked)
  | l :: rest, live, s, invoked =>
    let r := l.callback s
    match r.2 with
    | none =>
      let live' := if l.once then unsubscribe live l.name else live
      emitLoop rest live' r.1 (invoked ++ [l.name])
    | some _ => emitLoop rest live r.1 (invoked ++ [l.name])

/-- The bus state for a single topic: its listener list, plus the bounded
event history (we record event type names). -/
structure BusState (σ ε : Type) where
  listeners : List (Listener σ ε)
  eventHistory : List String
  maxHistorySize : ℕ

/-- `_addToHistory`: push, then shift the oldest entry while over the cap. -/
def addToHistory {σ ε : Type} (bus : BusState σ ε) (eventType : String) : BusState σ ε :=
  let h := bus.eventHistory ++ [eventType]
  { bus with eventHistory := if bus.maxHistorySize < h.length then h.drop 1 else h }

/-- `ReproductionEventBus.emit`: stores the event in the history, then
synchronously delivers it to a copy of the current listener list, catching
any exception a callback throws so that delivery continues and the `emit`
call itself returns normally (its type has no error component). -/
def emit {σ ε : Type} (bus : BusState σ ε) (eventType : String) (s : σ) :
    BusState σ ε × σ × List String :=
  let bus := addToHistory bus eventType
  let r := emitLoop bus.listeners bus.listeners s []
  ({ bus with listeners := r.2.1 }, r.1, r.2.2)

/-! ### BaseStrategy.js / FemaleSelection.js -/

/-- Result of a mating attempt: the two (possibly updated) participants,
the success flag, and the names of the events published. -/
structure MatingOutcome where
  male : Dwarf
  female : Dwarf
  success : Bool
  events : List String
  deriving Repr, DecidableEq

/-- `BaseStrategy.attemptMating`: precondition check on the female
(fail silently with a `mating_failure` event), then the
`Bernoulli(MATING_SUCCESS_RATE)` roll `u < rate`; an attempt event always
carries the roll outcome; only a successful roll mutates the pair. -/
def attemptMating (config : ReproConfig) (male female : Dwarf) (u : ℚ) : MatingOutcome :=
  if jsGtZero female.reproductionCooldown || jsTruthy female.isPregnant then
    { male := male, female := female, success := false, events := ["mating_failure"] }
  else
    let success := decide (u < config.MATING_SUCCESS_RATE)
    if success then
      { male := { male with reproductionCooldown := some config.MALE_REPRODUCTION_COOLDOWN }
        female := { female with
          isPregnant := some true
          pregnancyTimer := some 0
          reproductionCooldown := some config.FEMALE_REPRODUCTION_COOLDOWN }
        success := true
        events := ["mating_attempt", "mating_success"] }
    else
      { male := male, female := female, success := false, events := ["mating_attempt"] }

/-- `FemaleSelection.attemptMatingWithFemale`: the female-initiated path.
Same precondition and success roll; the failure paths publish no state
change (events for this path are emitted by the caller `acceptMating`). -/
def attemptMatingWithFemale (config : ReproConfig) (male female : Dwarf) (u : ℚ) :
    MatingOutcome :=
  if jsGtZero female.reproductionCooldown || jsTruthy female.isPregnant then
    { male := male, female := female, success := false, events := [] }
  else
    let success := decide (u < config.MATING_SUCCESS_RATE)
    if success then
      { male := { male with reproductionCooldown := some config.MALE_REPRODUCTION_COOLDOWN }
        female := { female with
          isPregnant := some true
          pregnancyTimer := some 0
          reproductionCooldown := some config.FEMALE_REPRODUCTION_COOLDOWN }
        success := true
        events := ["mating_success"] }
    else
      { male := male, female := female, success := false, events := [] }

/-- `FemaleSelection.scoreMate`: base score, three independent additive
personality blocks, plus `u * randomVariance` for the `Math.random()`
variance draw `u`.  Returns `none` when the female has no personality
record (the source would throw a TypeError reading its fields). -/
def scoreMate (config : ReproConfig) (female male : Dwarf) (u : ℚ) : Option ℚ :=
  match female.personality with
  | none => none
  | some p =>
    let fc := config.FEMALE_SELECTION
    let score := fc.baseScore
    let score :=
      if fc.agreeablenessThreshold < p.agreeableness then
        let score := if male.reproductionStrategy = some "blue" then score + fc.blueBonus else score
        if male.reproductionStrategy = some "orange" then score + fc.orangePenalty else score
      else score
    let score :=
      if fc.opennessThreshold < p.openness then
        if male.reproductionStrategy = some "yellow" then score + fc.yellowBonus else score
      else score
    let score :=
      if p.neuroticism < fc.neuroticismThreshold then
        if male.reproductionStrategy = some "orange" then score + fc.orangeBonus else score
      else score
    some (score + u * fc.randomVariance)

/-! ### StrategyFactory.js / ReproductionSystem.initializeReproductionTraits -/

/-- `StrategyFactory.initializeStrategyProperties`: strategy-specific
fields are only populated when currently `undefined`. -/
def initializeStrategyProperties (male : Dwarf) : Dwarf :=
  if male.reproductionStrategy = some "orange" then
    let male := if male.territoryX = none then { male with territoryX := some male.x } else male
    if male.territoryY = none then { male with territoryY := some male.y } else male
  else if male.reproductionStrategy = some "blue" then
    if male.guardedFemale = none then { male with guardedFemale := some none } else male
  else male

/-- `StrategyFactory.assignRandomStrategy`: non-males are left unchanged;
for a male the strategy is drawn as `MALE_STRATEGIES[floor(u * length)]`
and assigned unconditionally, then strategy-specific properties are
initialised and a `strategy_assigned` event is emitted. -/
def assignRandomStrategy (config : ReproConfig) (male : Dwarf) (u : ℚ) :
    Dwarf × List String :=
  if ¬ male.gender = "male" then (male, [])
  else
    let strategies := config.MALE_STRATEGIES
    let selected := strategies[(⌊u * (strategies.length : ℚ)⌋).toNat]?
    let male := { male with reproductionStrategy := selected }
    let male := initializeStrategyProperties male
    (male, ["strategy_assigned"])

/-- `ReproductionSystem.initializeReproductionTraits`: males get
`assignRandomStrategy` (unconditionally); the four scalar reproductive
fields are only populated when currently `undefined`; ends with the
`dwarf_reproduction_initialized` event. -/
def initializeReproductionTraits (config : ReproConfig) (dwarf : Dwarf) (u : ℚ) :
    Dwarf × List String :=
  let r := if dwarf.gender = "male" then assignRandomStrategy config dwarf u else (dwarf, [])
  let dwarf := r.1
  let dwarf := if dwarf.isPregnant = none then { dwarf with isPregnant := some false } else dwarf
  let dwarf := if dwarf.pregnancyTimer = none then { dwarf with pregnancyTimer := some 0 } else dwarf
  let dwarf :=
    if dwarf.reproductionCooldown = none then { dwarf with reproductionCooldown := some 0 } else dwarf
  let dwarf :=
    if dwarf.mateSeekingTimer = none then { dwarf with mateSeekingTimer := some 0 } else dwarf
  (dwarf, r.2 ++ ["dwarf_reproduction_initialized"])

/-! ### PregnancyManager.js -/

/-- The payload of the `BIRTH` event (the fields the claims inspect). -/
structure BirthEvent where
  motherName : String
  motherCooldown : Option ℚ
  babyName : String
  babyX : ℚ
  babyY : ℚ
  pregnancyDuration : Option ℚ
  deriving Repr, DecidableEq

/-- Result of a gestation step for one female. -/
structure GestationResult where
  mother : Dwarf
  population : List Dwarf
  birthEvent : Option BirthEvent
  events : List String
  deriving Repr, DecidableEq

/-- `WorldInterface.createDwarf` delegates to the global `Dwarf`
constructor.  Modelled from the spec: the `Dwarf` constructor itself is not
in src, so it is abstracted as an arbitrary `fresh` agent whose position
and adulthood are overridden by the constructor arguments
(`new Dwarf(babyX, babyY, null, false)`). -/
def createDwarf (x y : ℚ) (isAdult : Bool) (fresh : Dwarf) : Dwarf :=
  { fresh with x := x, y := y, isAdult := isAdult }

/-- `PregnancyManager.giveBirth`: reset the mother's pregnancy state and
cooldown, spawn the baby at a `±babySpawnRadius/2` uniform offset from the
mother (`u1, u2` are the two `Math.random()` draws), initialise its
reproduction traits (`u3` is the strategy draw), push it to the
population, and emit the `BIRTH` event — whose `pregnancyDuration` field
reads `mother.pregnancyTimer` after the reset. -/
def giveBirth (config : ReproConfig) (mother : Dwarf) (population : List Dwarf)
    (u1 u2 u3 : ℚ) (fresh : Dwarf) : GestationResult :=
  if ¬ jsTruthy mother.isPregnant then
    { mother := mother, population := population, birthEvent := none, events := [] }
  else
    let mother := { mother with
      isPregnant := some false
      pregnancyTimer := some 0
      reproductionCooldown := some config.FEMALE_REPRODUCTION_COOLDOWN }
    let offsetRange := config.SPATIAL.babySpawnRadius
    let babyX := mother.x + u1 * offsetRange - offsetRange / 2
    let babyY := mother.y + u2 * offsetRange - offsetRange / 2
    let baby := createDwarf babyX babyY false fresh
    let baby := (initializeReproductionTraits config baby u3).1
    let population := population ++ [baby]
    let ev : BirthEvent :=
      { motherName := mother.name
        motherCooldown := mother.reproductionCooldown
        babyName := baby.name
        babyX := baby.x
        babyY := baby.y
        pregnancyDuration := mother.pregnancyTimer }
    { mother := mother, population := population, birthEvent := some ev, events := ["birth"] }

/-- `PregnancyManager.updatePregnancy`: advance one pregnant female by one
tick — increment the timer, then give birth once it reaches
`PREGNANCY_DURATION`.  (An `undefined` timer increments to NaN in the
source and never reaches the threshold; it stays `none` here.) -/
def updatePregnancy (config : ReproConfig) (female : Dwarf) (population : List Dwarf)
    (u1 u2 u3 : ℚ) (fresh : Dwarf) : GestationResult :=
  if ¬ jsTruthy female.isPregnant then
    { mother := female, population := population, birthEvent := none, events := [] }
  else
    let female := { female with pregnancyTimer := female.pregnancyTimer.map (· + 1) }
    if jsGe female.pregnancyTimer config.PREGNANCY_DURATION then
      giveBirth config female population u1 u2 u3 fresh
    else
      { mother := female, population := population, birthEvent := none, events := [] }

/-! ### LifespanCombatSystem.js -/

/-- The `LifespanCombatSystem` configuration object. -/
structure LCConfig where
  maxLifespan : ℚ
  minLifespan : ℚ
  agingStartAge : ℚ
  maxHealth : ℚ
  naturalHealing : ℚ
  agingDamage : ℚ
  baseDamage : ℚ
  damageVariance : ℚ
  attackRange : ℚ
  attackCooldown : ℚ
  criticalChance : ℚ
  criticalMultiplier : ℚ
  territorialCombatChance : ℚ
  randomCombatChance : ℚ
  combatEffectDuration : ℚ
  deathEffectDuration : ℚ
  deriving Repr, DecidableEq

/-- The constructor defaults of `LifespanCombatSystem`. -/
def defaultLCConfig : LCConfig where
  maxLifespan := 36000
  minLifespan := 18000
  agingStartAge := 25200
  maxHealth := 100
  naturalHealing := 1/10
  agingDamage := 5/100
  baseDamage := 15
  damageVariance := 5
  attackRange := 20
  attackCooldown := 60
  criticalChance := 1/10
  criticalMultiplier := 3/2
  territorialCombatChance := 2/100
  randomCombatChance := 1/1000
  combatEffectDuration := 30
  deathEffectDuration := 60

/-- A skull sprite left at a death location (`createSkull`). -/
structure Skull where
  x : ℚ
  y : ℚ
  name : String
  age : ℚ
  maxAge : ℚ
  opacity : ℚ
  deriving Repr, DecidableEq

/-- A timed visual effect (combat spark or death effect). -/
structure VisualEffect where
  x : ℚ
  y : ℚ
  timer : ℚ
  tag : String
  deriving Repr, DecidableEq

/-- The `stats` counters of the system. -/
structure LCStats where
  totalDeaths : ℕ
  deathsByAge : ℕ
  deathsByCombat : ℕ
  totalCombats : ℕ
  totalDamageDealt : ℤ
  deriving Repr, DecidableEq

/-- Mutable system state of `LifespanCombatSystem` outside the agents:
skulls, visual effects and statistics, plus the queue of retaliations the
source schedules with `setTimeout` (modelled as deferred
(defenderIndex, attackerIndex) actions, per the concurrency model). -/
structure LCState where
  skulls : List Skull
  combatEffects : List VisualEffect
  deathEffects : List VisualEffect
  stats : LCStats
  pendingRetaliations : List (ℕ × ℕ)
  deriving Repr, DecidableEq

/-- An empty system state. -/
def emptyLCState : LCState where
  skulls := []
  combatEffects := []
  deathEffects := []
  stats := ⟨0, 0, 0, 0, 0⟩
  pendingRetaliations := []

/-- `WorldInterface.calculateDistance` squared.  The source compares the
Euclidean distance with a radius; this embedding compares squares, which
is exact for the non-negative radii in use. -/
def calculateDistanceSq (a b : Dwarf) : ℚ :=
  (a.x - b.x) * (a.x - b.x) + (a.y - b.y) * (a.y - b.y)

/-- `calculateDistance a b < r`, embedded on squares. -/
def distLt (a b : Dwarf) (r : ℚ) : Bool :=
  decide (calculateDistanceSq a b < r * r)

/-- `calculateDistance a b <= r`, embedded on squares. -/
def distLe (a b : Dwarf) (r : ℚ) : Bool :=
  decide (calculateDistanceSq a b ≤ r * r)

/-- `LifespanCombatSystem.handleAging`: past 70% of the lifespan, apply
linearly ramping aging damage and ramp any truthy `efficiency` down with a
0.3 floor. -/
def handleAging (cfg : LCConfig) (dwarf : Dwarf) : Dwarf :=
  let r := dwarf.age / dwarf.maxLifespan
  if 7/10 ≤ r then
    let agingFactor := (r - 7/10) / (3/10)
    let dwarf := { dwarf with health := dwarf.health.map (· - cfg.agingDamage * agingFactor) }
    match dwarf.efficiency with
    | some e =>
      if ¬ e = 0 then
        { dwarf with efficiency := some (max (3/10) (e * (1 - agingFactor * (3/10)))) }
      else dwarf
    | none => dwarf
  else dwarf

/-- `LifespanCombatSystem.handleHealthUpdate`: natural healing when
injured, out of combat and above 30% health (clamped at `maxHealth`), and
the health-bar visibility flag. -/
def handleHealthUpdate (cfg : LCConfig) (dwarf : Dwarf) : Dwarf :=
  let dwarf :=
    if jsLt dwarf.health dwarf.maxHealth && !dwarf.isInCombat &&
        jsGt dwarf.health (dwarf.maxHealth * (3/10)) then
      { dwarf with health := dwarf.health.map (fun h => min dwarf.maxHealth (h + cfg.naturalHealing)) }
    else dwarf
  { dwarf with healthBarVisible := jsLt dwarf.health (dwarf.maxHealth * (9/10)) }

/-- One step of a floating damage number (timer, position, gravity). -/
def stepDamageNumber (n : DamageNumber) : DamageNumber :=
  { n with timer := n.timer - 1, x := n.x + n.vx, y := n.y + n.vy, vy := n.vy + 1/10 }

/-- `LifespanCombatSystem.updateDamageNumbers`: each entry is advanced once
and spliced out when its timer has run out (the backwards loop with
`splice` visits every entry exactly once). -/
def updateDamageNumbers (dwarf : Dwarf) : Dwarf :=
  { dwarf with damageNumbers :=
      (dwarf.damageNumbers.map stepDamageNumber).filter (fun n => decide (0 < n.timer)) }

/-- `LifespanCombatSystem.isTerritorialDispute`: two orange males. -/
def isTerritorialDispute (d1 d2 : Dwarf) : Bool :=
  d1.reproductionStrategy = some "orange" && d2.reproductionStrategy = some "orange" &&
  d1.gender = "male" && d2.gender = "male"

/-- `LifespanCombatSystem.shouldEngageInCombat`: same-sex combat only for
territorial (orange-male) disputes; territorial disputes roll
`territorialCombatChance`; otherwise a rare random-combat roll, scaled by
`(100 − agreeableness) + neuroticism` when a personality is present.
`rng`/`k` thread the `Math.random()` stream; returns the verdict and the
next stream position. -/
def shouldEngageInCombat (cfg : LCConfig) (attacker target : Dwarf) (rng : ℕ → ℚ) (k : ℕ) :
    Bool × ℕ :=
  if attacker.gender = target.gender && !isTerritorialDispute attacker target then
    (false, k)
  else if isTerritorialDispute attacker target then
    (decide (rng k < cfg.territorialCombatChance), k + 1)
  else if rng k < cfg.randomCombatChance then
    match attacker.personality with
    | some p => (decide (rng (k + 1) * 200 < (100 - p.agreeableness) + p.neuroticism), k + 2)
    | none => (true, k + 1)
  else (false, k + 1)

/-- `WorldInterface.getNearbyDwarfs` over an indexed population: every
agent other than the centre (object identity = list index) strictly within
`radius`, in population order. -/
def getNearbyDwarfs (center : Dwarf) (centerIdx : ℕ) (radius : ℚ) (population : List Dwarf) :
    List (ℕ × Dwarf) :=
  population.enum.filter (fun it => ¬ it.1 = centerIdx && distLt center it.2 radius)

/-- `LifespanCombatSystem.moveTowardsTarget`: normalised movement towards
the target at `speed × combatStats.speed`; `sqrtQ` is the `Math.sqrt`
oracle (the only place the embedding needs the distance value itself). -/
def moveTowardsTarget (sqrtQ : ℚ → ℚ) (dwarf target : Dwarf) : Dwarf :=
  let dx := target.x - dwarf.x
  let dy := target.y - dwarf.y
  let distance := sqrtQ (dx * dx + dy * dy)
  if 0 < distance then
    let moveSpeed := jsOrNum dwarf.speed 1 * dwarf.combatStats.speed
    { dwarf with
      x := dwarf.x + dx / distance * moveSpeed
      y := dwarf.y + dy / distance * moveSpeed
      targetX := some target.x
      targetY := some target.y }
  else dwarf

/-- `LifespanCombatSystem.performAttack` on the population entries `i`
(attacker) and `j` (target): damage roll with variance, attack/defense
multipliers and critical hit; floored damage applied to the target; weak
`lastAttacker`/`combatTarget` references and in-combat flags set on both;
attacker cooldown scaled inversely by its speed; damage-number and combat
effects recorded; and the ~70% retaliation scheduled as a deferred action
(the source's `setTimeout`) when the target survives with its cooldown
available.  `Math.random()` draws, in source order: damage variance,
critical roll, damage-number x offset, damage-number x velocity, then
(conditionally) the retaliation roll. -/
def performAttack (cfg : LCConfig) (i j : ℕ) (population : List Dwarf) (sys : LCState)
    (rng : ℕ → ℚ) (k : ℕ) : List Dwarf × LCState × ℕ :=
  let attacker := population.getD i defaultDwarf
  let target := population.getD j defaultDwarf
  if 0 < attacker.attackCooldown then (population, sys, k)
  else
    let baseDamage := cfg.baseDamage + rng k * cfg.damageVariance
    let damage := baseDamage * attacker.combatStats.attack / target.combatStats.defense
    let critChance := cfg.criticalChance + attacker.combatStats.critChance
    let isCritical := decide (rng (k + 1) < critChance)
    let damage := if isCritical then damage * cfg.criticalMultiplier else damage
    let finalDamage : ℤ := ⌊damage⌋
    let target := { target with
      health := target.health.map (· - (finalDamage : ℚ))
      lastAttacker := some attacker.name
      isInCombat := true
      combatTarget := some attacker.name
      combatEffectTimer := cfg.combatEffectDuration
      damageNumbers := target.damageNumbers ++
        [{ damage := finalDamage
           x := target.x + rng (k + 2) * 20 - 10
           y := target.y - 20
           timer := 60
           isCritical := isCritical
           vx := rng (k + 3) * 2 - 1
           vy := -2 }] }
    let attacker := { attacker with
      isInCombat := true
      combatTarget := some target.name
      attackCooldown := cfg.attackCooldown / attacker.combatStats.speed
      combatEffectTimer := cfg.combatEffectDuration }
    let sys := { sys with
      combatEffects := sys.combatEffects ++
        [{ x := (attacker.x + target.x) / 2, y := (attacker.y + target.y) / 2
           timer := cfg.combatEffectDuration, tag := "melee" }]
      stats := { sys.stats with
        totalCombats := sys.stats.totalCombats + 1
        totalDamageDealt := sys.stats.totalDamageDealt + finalDamage } }
    let k := k + 4
    let r :=
      if jsGtZero target.health then
        if target.attackCooldown = 0 then
          (if rng k < 7/10 then
            { sys with pendingRetaliations := sys.pendingRetaliations ++ [(j, i)] }
           else sys, k + 1)
        else (sys, k)
      else (sys, k)
    ((population.set i attacker).set j target, r.1, r.2)

/-- The `filter` inside `handleCombatBehavior`, threading the random
stream: a candidate passes when its health is positive, it is not the
acting agent itself (index identity, already excluded by the proximity
query but re-checked as in the source), and `shouldEngageInCombat` agrees
— the roll only happening when the first two conditions hold
(`&&` short-circuit). -/
def filterCombatTargets (cfg : LCConfig) (dwarf : Dwarf) (dwarfIdx : ℕ)
    (candidates : List (ℕ × Dwarf)) (rng : ℕ → ℚ) (k : ℕ) :
    List (ℕ × Dwarf) × ℕ :=
  candidates.foldl
    (fun acc it =>
      if jsGtZero it.2.health then
        if ¬ it.1 = dwarfIdx then
          let r := shouldEngageInCombat cfg dwarf it.2 rng acc.2
          (if r.1 then acc.1 ++ [it] else acc.1, r.2)
        else acc
      else acc)
    ([], k)

/-- `LifespanCombatSystem.handleCombatBehavior` for the agent at index
`i`: adults off attack cooldown gather agents within `2 × attackRange`,
filter them through `shouldEngageInCombat`, and take the *first* entry of
the filtered list (`potentialTargets[0]`); if it is within `attackRange`
an attack resolves, otherwise the agent moves towards it only when it
already is its `combatTarget`. -/
def handleCombatBehavior (cfg : LCConfig) (sqrtQ : ℚ → ℚ) (i : ℕ) (population : List Dwarf)
    (sys : LCState) (rng : ℕ → ℚ) (k : ℕ) : List Dwarf × LCState × ℕ :=
  let dwarf := population.getD i defaultDwarf
  if !dwarf.isAdult || 0 < dwarf.attackCooldown then (population, sys, k)
  else
    let nearbyDwarfs := getNearbyDwarfs dwarf i (cfg.attackRange * 2) population
    let r := filterCombatTargets cfg dwarf i nearbyDwarfs rng k
    let k := r.2
    match r.1 with
    | [] => (population, sys, k)
    | (j, target) :: _ =>
      if distLe dwarf target cfg.attackRange then
        performAttack cfg i j population sys rng k
      else if dwarf.combatTarget = some target.name then
        (population.set i (moveTowardsTarget sqrtQ dwarf target), sys, k)
      else (population, sys, k)

/-- `LifespanCombatSystem.handleDeath` for the agent at index `i`: skull,
death effect and statistics (cause `combat` when health is already ≤ 0,
else `age`), then clearing `combatTarget`/`isInCombat` of every agent that
targeted the dead one, and finally flagging the agent dead with health
zeroed. -/
def handleDeath (cfg : LCConfig) (i : ℕ) (population : List Dwarf) (sys : LCState) :
    List Dwarf × LCState :=
  let dwarf := population.getD i defaultDwarf
  let deathCause := if jsLeZero dwarf.health then "combat" else "age"
  let sys := { sys with
    skulls := sys.skulls ++
      [{ x := dwarf.x, y := dwarf.y, name := dwarf.name ++ "\x27s remains"
         age := 0, maxAge := 18000, opacity := 1 }]
    deathEffects := sys.deathEffects ++
      [{ x := dwarf.x, y := dwarf.y, timer := cfg.deathEffectDuration, tag := dwarf.name }]
    stats := { sys.stats with
      totalDeaths := sys.stats.totalDeaths + 1
      deathsByAge := if deathCause = "age" then sys.stats.deathsByAge + 1 else sys.stats.deathsByAge
      deathsByCombat :=
        if deathCause = "age" then sys.stats.deathsByCombat else sys.stats.deathsByCombat + 1 } }
  let population := population.map (fun other =>
    if other.combatTarget = some dwarf.name then
      { other with combatTarget := none, isInCombat := false }
    else other)
  let population :=
    population.set i { population.getD i defaultDwarf with isDead := true, health := some 0 }
  (population, sys)

/-- `LifespanCombatSystem.updateDwarf` for the agent at index `i`: skip
agents whose health is falsy or ≤ 0; age by one tick; aging effects;
healing; cooldown and effect-timer decrements; damage-number updates;
combat behaviour; and finally death handling when health has reached 0 or
the lifespan is exhausted. -/
def updateDwarf (cfg : LCConfig) (sqrtQ : ℚ → ℚ) (i : ℕ) (population : List Dwarf)
    (sys : LCState) (rng : ℕ → ℚ) (k : ℕ) : List Dwarf × LCState × ℕ :=
  let dwarf := population.getD i defaultDwarf
  if jsFalsyNum dwarf.health || jsLeZero dwarf.health then (population, sys, k)
  else
    let dwarf := { dwarf with age := dwarf.age + 1 }
    let dwarf := handleAging cfg dwarf
    let dwarf := handleHealthUpdate cfg dwarf
    let dwarf :=
      if 0 < dwarf.attackCooldown then { dwarf with attackCooldown := dwarf.attackCooldown - 1 }
      else dwarf
    let dwarf :=
      if 0 < dwarf.combatEffectTimer then
        { dwarf with combatEffectTimer := dwarf.combatEffectTimer - 1 }
      else dwarf
    let dwarf := updateDamageNumbers dwarf
    let population := population.set i dwarf
    let r := handleCombatBehavior cfg sqrtQ i population sys rng k
    let population := r.1
    let dwarf := population.getD i defaultDwarf
    if jsLeZero dwarf.health || dwarf.maxLifespan ≤ dwarf.age then
      let d := handleDeath cfg i population r.2.1
      (d.1, d.2, r.2.2)
    else r

/-- `LifespanCombatSystem.updateSkulls`: age each skull, fade its opacity,
and remove it at `maxAge`. -/
def stepSkull (s : Skull) : Skull :=
  let s := { s with age := s.age + 1 }
  { s with opacity := max 0 (1 - s.age / s.maxAge) }

/-- `LifespanCombatSystem.updateSkulls`, continued: step then cull. -/
def updateSkulls (sys : LCState) : LCState :=
  { sys with skulls := (sys.skulls.map stepSkull).filter (fun s => decide (s.age < s.maxAge)) }

/-- `LifespanCombatSystem.updateEffects`: tick down and drop expired
combat and death effects. -/
def updateEffects (sys : LCState) : LCState :=
  { sys with
    combatEffects :=
      (sys.combatEffects.map (fun e => { e with timer := e.timer - 1 })).filter
        (fun e => decide (0 < e.timer))
    deathEffects :=
      (sys.deathEffects.map (fun e => { e with timer := e.timer - 1 })).filter
        (fun e => decide (0 < e.timer)) }

/-- `LifespanCombatSystem.update`: the per-tick entry point — every agent
not yet flagged dead is updated in population order (each seeing the
mutations of its predecessors), then skulls and visual effects advance. -/
def lcsUpdate (cfg : LCConfig) (sqrtQ : ℚ → ℚ) (population : List Dwarf) (sys : LCState)
    (rng : ℕ → ℚ) (k : ℕ) : List Dwarf × LCState × ℕ :=
  let r := (List.range population.length).foldl
    (fun acc i =>
      let d := acc.1.getD i defaultDwarf
      if !d.isDead then updateDwarf cfg sqrtQ i acc.1 acc.2.1 rng acc.2.2 else acc)
    (population, sys, k)
  (r.1, updateEffects (updateSkulls r.2.1), r.2.2)

/-! ## Theorems -/

/-- Peeling one `if cond then throw else …` step of a validator that ended
without an error. -/
theorem ifErrorOk {c : Prop} [Decidable c] {e : String} {rest : Except String Unit}
    (h : (if c then Except.error e else rest) = Except.ok ()) :
    ¬ c ∧ rest = Except.ok () := by
  by_cases hc : c
  · rw [if_pos hc] at h; exact Except.noConfusion h
  · rw [if_neg hc] at h; exact ⟨hc, h⟩

/-- Peeling one sub-validator call of a validation run that ended without
an error. -/
theorem exceptSeqOk {x rest : Except String Unit}
    (h : exceptSeq x rest = Except.ok ()) :
    x = Except.ok () ∧ rest = Except.ok () := by
  cases x with
  | error e => exact Except.noConfusion h
  | ok a => exact ⟨rfl, h⟩

/-- An accepted orange strategy configuration has a positive (not
necessarily integer) cooldown and a mating chance in `(0, 1]`. -/
theorem validateOrangeStrategyCfg_ok (s : OrangeCfg)
    (h : validateOrangeStrategyCfg s = .ok ()) :
    0 < s.cooldown ∧ 0 < s.matingChance ∧ s.matingChance ≤ 1 := by
  unfold validateOrangeStrategyCfg at h
  obtain ⟨h1, h⟩ := ifErrorOk h
  obtain ⟨h2, h⟩ := ifErrorOk h
  obtain ⟨h3, h⟩ := ifErrorOk h
  exact ⟨lt_of_not_le h1, lt_of_not_le h2, le_of_not_lt h3⟩

/-- An accepted blue strategy configuration has a positive (not
necessarily integer) cooldown and a mating chance in `(0, 1]`. -/
theorem validateBlueStrategyCfg_ok (s : BlueCfg)
    (h : validateBlueStrategyCfg s = .ok ()) :
    0 < s.cooldown ∧ 0 < s.matingChance ∧ s.matingChance ≤ 1 := by
  unfold validateBlueStrategyCfg at h
  obtain ⟨h1, h⟩ := ifErrorOk h
  obtain ⟨h2, h⟩ := ifErrorOk h
  obtain ⟨h3, h⟩ := ifErrorOk h
  exact ⟨lt_of_not_le h1, lt_of_not_le h2, le_of_not_lt h3⟩

/-- An accepted yellow strategy configuration has a positive (not
necessarily integer) cooldown and a mating chance in `(0, 1]`. -/
theorem validateYellowStrategyCfg_ok (s : YellowCfg)
    (h : validateYellowStrategyCfg s = .ok ()) :
    0 < s.cooldown ∧ 0 < s.matingChance ∧ s.matingChance ≤ 1 := by
  unfold validateYellowStrategyCfg at h
  obtain ⟨h1, h⟩ := ifErrorOk h
  obtain ⟨h2, h⟩ := ifErrorOk h
  obtain ⟨h3, h⟩ := ifErrorOk h
  exact ⟨lt_of_not_le h1, lt_of_not_le h2, le_of_not_lt h3⟩

/-- The default configuration with the orange mate-seeking cooldown set to
the non-integer value 1/2. -/
def badConfigC9 : ReproConfig :=
  { REPRODUCTION_CONFIG with ORANGE_STRATEGY.cooldown := 1/2 }

/-- C9, counterexample: a configuration whose orange strategy mate-seeking
cooldown is the positive non-integer 1/2 is accepted by `validateConfig`
without any error, although the claim's validity predicate ("every
cooldown is a positive integer") rejects it — so validation does not
raise an error exactly on the claim's invalid configurations. -/
theorem C9_counterexample :
    validateConfig badConfigC9 = Except.ok () ∧
    isIntegerQ badConfigC9.ORANGE_STRATEGY.cooldown = false ∧
    0 < badConfigC9.ORANGE_STRATEGY.cooldown := by decide

/-- C9 (amended): any configuration accepted by startup validation has
`0 < MATING_SUCCESS_RATE ≤ 1`, positive-integer female and male
reproduction cooldowns, positive (not necessarily integer) strategy
mate-seeking cooldowns, and every strategy mating chance in `(0, 1]`;
rejection comes with a descriptive error message, but acceptance is not
equivalent to the claim's validity predicate (validation neither requires
strategy cooldowns to be integers nor is it limited to these conditions —
it also checks the strategy list, colors, distances and female-selection
parameters). -/
theorem C9_validation_soundness (config : ReproConfig)
    (h : validateConfig config = .ok ()) :
    (0 < config.MATING_SUCCESS_RATE ∧ config.MATING_SUCCESS_RATE ≤ 1) ∧
    (0 < config.FEMALE_REPRODUCTION_COOLDOWN ∧
      isIntegerQ config.FEMALE_REPRODUCTION_COOLDOWN = true) ∧
    (0 < config.MALE_REPRODUCTION_COOLDOWN ∧
      isIntegerQ config.MALE_REPRODUCTION_COOLDOWN = true) ∧
    (0 < config.ORANGE_STRATEGY.cooldown ∧ 0 < config.BLUE_STRATEGY.cooldown ∧
      0 < config.YELLOW_STRATEGY.cooldown) ∧
    (0 < config.ORANGE_STRATEGY.matingChance ∧ config.ORANGE_STRATEGY.matingChance ≤ 1) ∧
    (0 < config.BLUE_STRATEGY.matingChance ∧ config.BLUE_STRATEGY.matingChance ≤ 1) ∧
    (0 < config.YELLOW_STRATEGY.matingChance ∧ config.YELLOW_STRATEGY.matingChance ≤ 1) := by
  unfold validateConfig at h
  obtain ⟨h1, h⟩ := ifErrorOk h
  obtain ⟨h2, h⟩ := ifErrorOk h
  obtain ⟨h3, h⟩ := ifErrorOk h
  obtain ⟨h4, h⟩ := ifErrorOk h
  obtain ⟨h5, h⟩ := ifErrorOk h
  obtain ⟨h6, h⟩ := ifErrorOk h
  obtain ⟨h7, h⟩ := ifErrorOk h
  obtain ⟨h8, h⟩ := ifErrorOk h
  obtain ⟨h9, h⟩ := ifErrorOk h
  obtain ⟨ho, h⟩ := exceptSeqOk h
  obtain ⟨hb, h⟩ := exceptSeqOk h
  obtain ⟨hy, h⟩ := exceptSeqOk h
  have Ho := validateOrangeStrategyCfg_ok _ ho
  have Hb := validateBlueStrategyCfg_ok _ hb
  have Hy := validateYellowStrategyCfg_ok _ hy
  rw [not_or, not_le] at h1
  rw [not_or, not_le, not_not] at h4 h5
  exact ⟨⟨h1.1, le_of_not_lt h1.2⟩, ⟨h4.1, h4.2⟩, ⟨h5.1, h5.2⟩,
    ⟨Ho.1, Hb.1, Hy.1⟩, ⟨Ho.2.1, Ho.2.2⟩, ⟨Hb.2.1, Hb.2.2⟩, ⟨Hy.2.1, Hy.2.2⟩⟩

/-- Helper: the names invoked by the delivery loop are exactly the names
of the snapshot it iterates, independently of which callbacks throw. -/
theorem emitLoop_invoked {σ ε : Type} (todo : List (Listener σ ε)) :
    ∀ (live : List (Listener σ ε)) (s : σ) (invoked : List String),
      (emitLoop todo live s invoked).2.2 = invoked ++ todo.map (fun l => l.name) := by
  induction todo with
  | nil => intro live s invoked; simp [emitLoop]
  | cons l rest ih =>
    intro live s invoked
    rw [emitLoop]
    cases h : (l.callback s).2 with
    | none => simp only [h, ih]; simp
    | some e => simp only [h, ih]; simp

/-- C8: for every publish on the event channel, every subscribed handler
for the topic is invoked, in order, even when any of the handlers throw
(each exception is caught inside the delivery loop), and the publishing
call itself returns normally — `emit` is a total function whose result
carries no error component. -/
theorem C8_emit_delivers_to_all_handlers {σ ε : Type} (bus : BusState σ ε)
    (eventType : String) (s : σ) :
    (emit bus eventType s).2.2 = bus.listeners.map (fun l => l.name) := by
  unfold emit
  simp [emitLoop_invoked, addToHistory]

/-- C4: a failed mating attempt — whether the target female's
precondition (`reproductionCooldown ≤ 0` and not pregnant) fails or the
`Bernoulli(0.7)` success roll fails — leaves both participants entirely
unchanged, on the male-initiated path (`BaseStrategy.attemptMating`) and
on the female-initiated path (`FemaleSelection.attemptMatingWithFemale`)
alike. -/
theorem C4_failed_attempt_no_mutation (config : ReproConfig) (male female : Dwarf) (u : ℚ)
    (h1 : (attemptMating config male female u).success = false)
    (h2 : (attemptMatingWithFemale config male female u).success = false) :
    (attemptMating config male female u).male = male ∧
    (attemptMating config male female u).female = female ∧
    (attemptMatingWithFemale config male female u).male = male ∧
    (attemptMatingWithFemale config male female u).female = female := by
  by_cases hc : (jsGtZero female.reproductionCooldown || jsTruthy female.isPregnant) = true
  · by_cases hu : u < config.MATING_SUCCESS_RATE
    · simp [attemptMating, attemptMatingWithFemale, hc, hu]
    · simp [attemptMating, attemptMatingWithFemale, hc, hu]
  · by_cases hu : u < config.MATING_SUCCESS_RATE
    · exact absurd h2 (by simp [attemptMatingWithFemale, hc, hu])
    · simp [attemptMating, attemptMatingWithFemale, hc, hu]

/-- A male agent used as a concrete mating-attempt participant. -/
def maleC4 : Dwarf :=
  { defaultDwarf with name := "Mace", gender := "male", isAdult := true
                      reproductionStrategy := some "blue" }

/-- An available female agent used as a concrete mating-attempt target. -/
def femaleC4 : Dwarf :=
  { defaultDwarf with name := "Fern", gender := "female", isAdult := true
                      isPregnant := some false, reproductionCooldown := some 0 }

/-- C4, witness: with the roll draw `u = 1` the attempt fails on both
paths and both concrete participants are unchanged. -/
theorem C4_failed_attempt_no_mutation_witness :
    (attemptMating REPRODUCTION_CONFIG maleC4 femaleC4 1).male = maleC4 ∧
    (attemptMating REPRODUCTION_CONFIG maleC4 femaleC4 1).female = femaleC4 ∧
    (attemptMatingWithFemale REPRODUCTION_CONFIG maleC4 femaleC4 1).male = maleC4 ∧
    (attemptMatingWithFemale REPRODUCTION_CONFIG maleC4 femaleC4 1).female = femaleC4 :=
  C4_failed_attempt_no_mutation REPRODUCTION_CONFIG maleC4 femaleC4 1 (by decide) (by decide)

/-- Helper: pulling an added constant out of a list sum. -/
theorem sumMapShift (us : List ℚ) (c : ℚ) (f : ℚ → ℚ) :
    (us.map (fun u => f u + c)).sum = (us.map f).sum + us.length * c := by
  induction us with
  | nil => simp
  | cons a t ih => simp [ih]; ring

/-- C7: for a female whose agreeableness exceeds the threshold (60) and
whose neuroticism is not below the threshold (40), a guardian (blue)
male's score exceeds a territorial (orange) male's score by exactly 40 at
every value of the shared variance draw (bonus +30 against penalty −10),
so over any finite sample of identically-used draws the mean guardian
score equals the mean territorial score plus 40 and strictly exceeds
it — the claim's expected-value dominance. -/
theorem C7_guardian_scores_above_territorial (female blueM orangeM : Dwarf) (p : Personality)
    (hp : female.personality = some p)
    (ha : REPRODUCTION_CONFIG.FEMALE_SELECTION.agreeablenessThreshold < p.agreeableness)
    (hn : ¬ p.neuroticism < REPRODUCTION_CONFIG.FEMALE_SELECTION.neuroticismThreshold)
    (hb : blueM.reproductionStrategy = some "blue")
    (ho : orangeM.reproductionStrategy = some "orange") :
    (∀ u : ℚ, scoreMate REPRODUCTION_CONFIG female blueM u =
        (scoreMate REPRODUCTION_CONFIG female orangeM u).map (fun s => s + 40)) ∧
    (∀ us : List ℚ, us ≠ [] →
      (us.map (fun u => (scoreMate REPRODUCTION_CONFIG female blueM u).getD 0)).sum /
          (us.length : ℚ) =
        (us.map (fun u => (scoreMate REPRODUCTION_CONFIG female orangeM u).getD 0)).sum /
          (us.length : ℚ) + 40 ∧
      (us.map (fun u => (scoreMate REPRODUCTION_CONFIG female orangeM u).getD 0)).sum /
          (us.length : ℚ) <
        (us.map (fun u => (scoreMate REPRODUCTION_CONFIG female blueM u).getD 0)).sum /
          (us.length : ℚ)) := by
  have hblue : ∀ u : ℚ, scoreMate REPRODUCTION_CONFIG female blueM u = some (80 + u * 20) := by
    intro u
    simp only [scoreMate, hp, hb, if_pos ha, if_neg hn]
    norm_num [REPRODUCTION_CONFIG]
    ring_nf
    simp [ite_self]
  have horange : ∀ u : ℚ, scoreMate REPRODUCTION_CONFIG female orangeM u = some (40 + u * 20) := by
    intro u
    simp only [scoreMate, hp, ho, if_pos ha, if_neg hn]
    norm_num [REPRODUCTION_CONFIG]
    ring_nf
    simp [ite_self]
    norm_num
  refine ⟨fun u => by rw [hblue, horange]; simp; ring, fun us hne => ?_⟩
  have hmb : us.map (fun u => (scoreMate REPRODUCTION_CONFIG female blueM u).getD 0) =
      us.map (fun u => (40 + u * 20) + 40) := by
    refine List.map_congr_left (fun u _ => ?_)
    rw [hblue]; simp; ring
  have hmo : us.map (fun u => (scoreMate REPRODUCTION_CONFIG female orangeM u).getD 0) =
      us.map (fun u => 40 + u * 20) := by
    refine List.map_congr_left (fun u _ => ?_)
    rw [horange]; simp
  have hlen : (us.length : ℚ) ≠ 0 := by
    have := List.length_pos.mpr hne
    exact_mod_cast Nat.pos_iff_ne_zero.mp this
  rw [hmb, hmo, sumMapShift]
  constructor
  · rw [add_div, mul_comm, mul_div_assoc, div_self hlen, mul_one]
  · rw [add_div, mul_comm, mul_div_assoc, div_self hlen, mul_one]
    exact lt_add_of_pos_right _ (by norm_num)

/-- The personality of the claim's concrete female: agreeableness 80,
openness 50, neuroticism 90. -/
def personalityC7 : Personality := ⟨80, 50, 90⟩

/-- The concrete scoring female. -/
def femaleC7 : Dwarf :=
  { defaultDwarf with name := "Faye", gender := "female", isAdult := true
                      personality := some personalityC7 }

/-- A concrete guardian (blue) male candidate. -/
def blueMaleC7 : Dwarf :=
  { defaultDwarf with name := "Blu", gender := "male", isAdult := true
                      reproductionStrategy := some "blue" }

/-- A concrete territorial (orange) male candidate. -/
def orangeMaleC7 : Dwarf :=
  { defaultDwarf with name := "Ora", gender := "male", isAdult := true
                      reproductionStrategy := some "orange" }

/-- C7, witness: the dominance instantiated at the concrete female of the
claim (agreeableness 80, neuroticism 90), for the draw `u = 0` and the
two-draw sample `[0, 1/2]`. -/
theorem C7_guardian_scores_above_territorial_witness :
    scoreMate REPRODUCTION_CONFIG femaleC7 blueMaleC7 0 =
      (scoreMate REPRODUCTION_CONFIG femaleC7 orangeMaleC7 0).map (fun s => s + 40) ∧
    (([0, 1/2] : List ℚ).map
        (fun u => (scoreMate REPRODUCTION_CONFIG femaleC7 orangeMaleC7 u).getD 0)).sum /
        ((2 : ℕ) : ℚ) <
      (([0, 1/2] : List ℚ).map
        (fun u => (scoreMate REPRODUCTION_CONFIG femaleC7 blueMaleC7 u).getD 0)).sum /
        ((2 : ℕ) : ℚ) := by
  have h := C7_guardian_scores_above_territorial femaleC7 blueMaleC7 orangeMaleC7 personalityC7
    (by decide) (by decide) (by decide) (by decide) (by decide)
  exact ⟨h.1 0, ((h.2 [0, 1/2] (by decide)).2)⟩

/-- Helper: `initializeStrategyProperties` touches only
`territoryX`/`territoryY`/`guardedFemale`; every field the other claims
inspect is preserved. -/
theorem initializeStrategyProperties_fields (m : Dwarf) :
    (initializeStrategyProperties m).reproductionStrategy = m.reproductionStrategy ∧
    (initializeStrategyProperties m).isPregnant = m.isPregnant ∧
    (initializeStrategyProperties m).pregnancyTimer = m.pregnancyTimer ∧
    (initializeStrategyProperties m).reproductionCooldown = m.reproductionCooldown ∧
    (initializeStrategyProperties m).mateSeekingTimer = m.mateSeekingTimer ∧
    (initializeStrategyProperties m).x = m.x ∧
    (initializeStrategyProperties m).y = m.y ∧
    (initializeStrategyProperties m).isAdult = m.isAdult := by
  unfold initializeStrategyProperties
  by_cases h1 : m.reproductionStrategy = some "orange"
  · by_cases h2 : m.territoryX = none <;> by_cases h3 : m.territoryY = none <;>
      simp [h1, h2, h3]
  · by_cases h4 : m.reproductionStrategy = some "blue"
    · by_cases h5 : m.guardedFemale = none <;> simp [h1, h4, h5]
    · simp [h1, h4]

/-- A male agent restored with every reproductive field populated,
strategy tag `orange` included. -/
def restoredMaleC5 : Dwarf :=
  { defaultDwarf with
      name := "Rex", gender := "male", isAdult := true
      reproductionStrategy := some "orange"
      isPregnant := some false, pregnancyTimer := some 0
      reproductionCooldown := some 0, mateSeekingTimer := some 0
      territoryX := some 0, territoryY := some 0 }

/-- C5, counterexample: invoking the reproductive-state initialization
hook on a male whose strategy is already set re-randomizes it — with the
draw 1/3 the restored orange male comes out blue, so the hook is not
idempotent on the strategy tag. -/
theorem C5_counterexample :
    restoredMaleC5.reproductionStrategy = some "orange" ∧
    ((initializeReproductionTraits REPRODUCTION_CONFIG restoredMaleC5 (1/3)).1).reproductionStrategy =
      some "blue" := by decide

/-- C5 (amended): `initializeReproductionTraits` only populates the four
scalar reproductive fields (`isPregnant`, `pregnancyTimer`,
`reproductionCooldown`, `mateSeekingTimer`) when they are unset — already
populated values are preserved — but a male's strategy tag is
unconditionally re-drawn as `MALE_STRATEGIES[floor(u·3)]` on every
invocation (a non-male's tag is untouched), so a restored male does not
keep his previously assigned strategy. -/
theorem C5_initialize_traits_partial_idempotence (config : ReproConfig) (dwarf : Dwarf) (u : ℚ) :
    ((dwarf.isPregnant ≠ none →
        ((initializeReproductionTraits config dwarf u).1).isPregnant = dwarf.isPregnant) ∧
     (dwarf.pregnancyTimer ≠ none →
        ((initializeReproductionTraits config dwarf u).1).pregnancyTimer = dwarf.pregnancyTimer) ∧
     (dwarf.reproductionCooldown ≠ none →
        ((initializeReproductionTraits config dwarf u).1).reproductionCooldown =
          dwarf.reproductionCooldown) ∧
     (dwarf.mateSeekingTimer ≠ none →
        ((initializeReproductionTraits config dwarf u).1).mateSeekingTimer =
          dwarf.mateSeekingTimer)) ∧
    (dwarf.gender = "male" →
      ((initializeReproductionTraits config dwarf u).1).reproductionStrategy =
        config.MALE_STRATEGIES[(⌊u * (config.MALE_STRATEGIES.length : ℚ)⌋).toNat]?) ∧
    (¬ dwarf.gender = "male" →
      ((initializeReproductionTraits config dwarf u).1).reproductionStrategy =
        dwarf.reproductionStrategy) := by
  have hS := initializeStrategyProperties_fields
  unfold initializeReproductionTraits assignRandomStrategy
  by_cases hg : dwarf.gender = "male" <;>
    simp only [hg, if_true, if_false, ite_true, ite_false, not_true, not_false_iff] <;>
    split_ifs <;>
    simp_all

/-- C5, witness: the amended statement instantiated at the restored
orange male with the draw 1/3 — his four scalar fields are preserved and
his strategy becomes entry 1 of the strategy list, namely blue. -/
theorem C5_initialize_traits_partial_idempotence_witness :
    ((initializeReproductionTraits REPRODUCTION_CONFIG restoredMaleC5 (1/3)).1).isPregnant =
      restoredMaleC5.isPregnant ∧
    ((initializeReproductionTraits REPRODUCTION_CONFIG restoredMaleC5 (1/3)).1).pregnancyTimer =
      restoredMaleC5.pregnancyTimer ∧
    ((initializeReproductionTraits REPRODUCTION_CONFIG restoredMaleC5 (1/3)).1).reproductionCooldown =
      restoredMaleC5.reproductionCooldown ∧
    ((initializeReproductionTraits REPRODUCTION_CONFIG restoredMaleC5 (1/3)).1).mateSeekingTimer =
      restoredMaleC5.mateSeekingTimer ∧
    ((initializeReproductionTraits REPRODUCTION_CONFIG restoredMaleC5 (1/3)).1).reproductionStrategy =
      some "blue" := by
  have h := C5_initialize_traits_partial_idempotence REPRODUCTION_CONFIG restoredMaleC5 (1/3)
  exact ⟨h.1.1 (by decide), h.1.2.1 (by decide), h.1.2.2.1 (by decide), h.1.2.2.2 (by decide),
    (h.2.1 (by decide)).trans (by decide)⟩

/-- Helper: the reproductive-trait initialization of a newborn never
moves it or makes it an adult. -/
theorem initTraits_preserves_position (config : ReproConfig) (d : Dwarf) (u : ℚ) :
    ((initializeReproductionTraits config d u).1).x = d.x ∧
    ((initializeReproductionTraits config d u).1).y = d.y ∧
    ((initializeReproductionTraits config d u).1).isAdult = d.isAdult := by
  have hS := initializeStrategyProperties_fields
  unfold initializeReproductionTraits assignRandomStrategy
  by_cases hg : d.gender = "male" <;>
    simp only [hg, if_true, if_false, ite_true, ite_false, not_true, not_false_iff] <;>
    split_ifs <;>
    simp_all

/-- C2: advancing a pregnant female at `pregnancyTimer = 3599` by one
gestation tick delivers the birth: `isPregnant` becomes false, the timer
resets to 0, the reproduction cooldown becomes 7200, and exactly one new
non-adult agent is appended to the population at the mother's position
offset by `u·40 − 20` on each axis. -/
theorem C2_gestation_birth (f : Dwarf) (pop : List Dwarf) (u1 u2 u3 : ℚ) (fresh : Dwarf)
    (hp : f.isPregnant = some true) (ht : f.pregnancyTimer = some 3599) :
    (updatePregnancy REPRODUCTION_CONFIG f pop u1 u2 u3 fresh).mother.isPregnant = some false ∧
    (updatePregnancy REPRODUCTION_CONFIG f pop u1 u2 u3 fresh).mother.pregnancyTimer = some 0 ∧
    (updatePregnancy REPRODUCTION_CONFIG f pop u1 u2 u3 fresh).mother.reproductionCooldown =
      some 7200 ∧
    ∃ baby : Dwarf,
      (updatePregnancy REPRODUCTION_CONFIG f pop u1 u2 u3 fresh).population = pop ++ [baby] ∧
      baby.x = f.x + u1 * 40 - 20 ∧ baby.y = f.y + u2 * 40 - 20 ∧ baby.isAdult = false := by
  unfold updatePregnancy giveBirth
  simp only [hp, ht, jsTruthy, jsGe, Option.map, REPRODUCTION_CONFIG]
  norm_num
  have h := initTraits_preserves_position REPRODUCTION_CONFIG
      (createDwarf (f.x + u1 * 40 - 20) (f.y + u2 * 40 - 20) false fresh) u3
  simpa [createDwarf, REPRODUCTION_CONFIG] using h

/-- A pregnant female one tick before the gestation threshold. -/
def pregnantMotherC23 : Dwarf :=
  { defaultDwarf with
      name := "Mona", gender := "female", isAdult := true
      isPregnant := some true, pregnancyTimer := some 3599 }

/-- C2, witness: the birth evaluated at the concrete mother with draws 0:
state reset as claimed and exactly one non-adult baby at (−20, −20). -/
theorem C2_gestation_birth_witness :
    (updatePregnancy REPRODUCTION_CONFIG pregnantMotherC23 [] 0 0 0 defaultDwarf).mother.isPregnant =
      some false ∧
    (updatePregnancy REPRODUCTION_CONFIG pregnantMotherC23 [] 0 0 0 defaultDwarf).mother.pregnancyTimer =
      some 0 ∧
    (updatePregnancy REPRODUCTION_CONFIG pregnantMotherC23 [] 0 0 0 defaultDwarf).mother.reproductionCooldown =
      some 7200 ∧
    (updatePregnancy REPRODUCTION_CONFIG pregnantMotherC23 [] 0 0 0 defaultDwarf).population.length = 1 ∧
    ((updatePregnancy REPRODUCTION_CONFIG pregnantMotherC23 [] 0 0 0 defaultDwarf).population.getD 0
        defaultDwarf).x = pregnantMotherC23.x + 0 * 40 - 20 ∧
    ((updatePregnancy REPRODUCTION_CONFIG pregnantMotherC23 [] 0 0 0 defaultDwarf).population.getD 0
        defaultDwarf).isAdult = false := by
  have h := C2_gestation_birth pregnantMotherC23 [] 0 0 0 defaultDwarf rfl rfl
  obtain ⟨h1, h2, h3, baby, hpop, hx, hy, hA⟩ := h
  refine ⟨h1, h2, h3, by rw [hpop]; rfl, ?_, ?_⟩
  · rw [hpop]; simpa using hx
  · rw [hpop]; simpa using hA

/-- C3, code bug: at the very birth the claim describes (timer 3599
advanced one tick), the emitted birth event carries
`pregnancyDuration = 0`, not the realized 3600-tick gestation — the
source resets `mother.pregnancyTimer` to 0 before building the event
payload from it. -/
theorem C3_birth_event_duration_is_zero :
    ((updatePregnancy REPRODUCTION_CONFIG pregnantMotherC23 [] 0 0 0 defaultDwarf).birthEvent).map
        (fun e => e.pregnancyDuration) = some (some 0) ∧
    ¬ ((updatePregnancy REPRODUCTION_CONFIG pregnantMotherC23 [] 0 0 0 defaultDwarf).birthEvent).map
        (fun e => e.pregnancyDuration) = some (some 3600) := by decide

/-- Helper: `List.getD` after `List.set` at a different index. -/
theorem getD_set_ne {α : Type} (l : List α) (i j : ℕ) (a d : α) (h : j ≠ i) :
    (l.set i a).getD j d = l.getD j d := by
  rw [List.getD_eq_getElem?_getD, List.getD_eq_getElem?_getD,
    List.getElem?_set_ne (fun he => h he.symm)]

/-- Helper: `List.getD` through `List.map` at an in-range index. -/
theorem getD_map_lt {α β : Type} (f : α → β) (l : List α) (j : ℕ) (hj : j < l.length)
    (d : α) (e : β) :
    (l.map f).getD j e = f (l.getD j d) := by
  rw [List.getD_eq_getElem?_getD, List.getD_eq_getElem?_getD, List.getElem?_map,
    List.getElem?_eq_getElem hj]
  rfl

/-- A freshly dead agent (killed in combat) that others still reference. -/
def deadAvaC1 : Dwarf :=
  { defaultDwarf with name := "Ava", gender := "female", isAdult := true, health := some 0 }

/-- A living agent holding all three weak references to the dead agent. -/
def targeterBobC1 : Dwarf :=
  { defaultDwarf with
      name := "Bob", gender := "male", isAdult := true, health := some 50
      isInCombat := true, combatTarget := some "Ava"
      lastAttacker := some "Ava", guardedFemale := some (some "Ava") }

/-- C1, counterexample: when the death of Ava is handled, Bob's
`combatTarget` is cleared and his `isInCombat` flag dropped, but his
`lastAttacker` and `guardedFemale` references to the dead agent survive —
so the claim that every weak-reference field pointing at the dead agent
is cleared is false. -/
theorem C1_counterexample :
    ((handleDeath defaultLCConfig 0 [deadAvaC1, targeterBobC1] emptyLCState).1.getD 1
        defaultDwarf).combatTarget = none ∧
    ((handleDeath defaultLCConfig 0 [deadAvaC1, targeterBobC1] emptyLCState).1.getD 1
        defaultDwarf).isInCombat = false ∧
    ((handleDeath defaultLCConfig 0 [deadAvaC1, targeterBobC1] emptyLCState).1.getD 1
        defaultDwarf).lastAttacker = some "Ava" ∧
    ((handleDeath defaultLCConfig 0 [deadAvaC1, targeterBobC1] emptyLCState).1.getD 1
        defaultDwarf).guardedFemale = some (some "Ava") ∧
    ((handleDeath defaultLCConfig 0 [deadAvaC1, targeterBobC1] emptyLCState).1.getD 0
        defaultDwarf).isDead = true := by decide

/-- C1 (amended): in the tick in which a death is handled, every other
agent whose `combatTarget` was the dead agent has that target cleared and
`isInCombat` set to false (an agent not targeting the dead one is left
entirely unchanged), but `lastAttacker` and `guardedFemale` references to
the dead agent are never cleared. -/
theorem C1_death_clears_only_combat_target (cfg : LCConfig) (pop : List Dwarf) (sys : LCState)
    (i j : ℕ) (hj : j < pop.length) (hne : j ≠ i) :
    ((pop.getD j defaultDwarf).combatTarget = some (pop.getD i defaultDwarf).name →
      ((handleDeath cfg i pop sys).1.getD j defaultDwarf).combatTarget = none ∧
      ((handleDeath cfg i pop sys).1.getD j defaultDwarf).isInCombat = false) ∧
    ((pop.getD j defaultDwarf).combatTarget ≠ some (pop.getD i defaultDwarf).name →
      (handleDeath cfg i pop sys).1.getD j defaultDwarf = pop.getD j defaultDwarf) ∧
    ((handleDeath cfg i pop sys).1.getD j defaultDwarf).lastAttacker =
      (pop.getD j defaultDwarf).lastAttacker ∧
    ((handleDeath cfg i pop sys).1.getD j defaultDwarf).guardedFemale =
      (pop.getD j defaultDwarf).guardedFemale := by
  have key : (handleDeath cfg i pop sys).1.getD j defaultDwarf =
      (if (pop.getD j defaultDwarf).combatTarget = some (pop.getD i defaultDwarf).name then
        { pop.getD j defaultDwarf with combatTarget := none, isInCombat := false }
      else pop.getD j defaultDwarf) := by
    unfold handleDeath
    rw [getD_set_ne _ _ _ _ _ hne]
    rw [getD_map_lt _ _ _ hj defaultDwarf]
  by_cases hc : (pop.getD j defaultDwarf).combatTarget = some (pop.getD i defaultDwarf).name
  · rw [key, if_pos hc]
    exact ⟨fun _ => ⟨rfl, rfl⟩, fun hn => absurd hc hn, rfl, rfl⟩
  · rw [key, if_neg hc]
    exact ⟨fun hcon => absurd hcon hc, fun _ => rfl, rfl, rfl⟩

/-- C1, witness: the amended statement at the two-agent population, with
Bob (index 1) targeting the dying Ava (index 0). -/
theorem C1_death_clears_only_combat_target_witness :
    (((handleDeath defaultLCConfig 0 [deadAvaC1, targeterBobC1] emptyLCState).1.getD 1
        defaultDwarf).combatTarget = none ∧
      ((handleDeath defaultLCConfig 0 [deadAvaC1, targeterBobC1] emptyLCState).1.getD 1
        defaultDwarf).isInCombat = false) ∧
    ((handleDeath defaultLCConfig 0 [deadAvaC1, targeterBobC1] emptyLCState).1.getD 1
        defaultDwarf).lastAttacker = some "Ava" ∧
    ((handleDeath defaultLCConfig 0 [deadAvaC1, targeterBobC1] emptyLCState).1.getD 1
        defaultDwarf).guardedFemale = some (some "Ava") := by
  have h := C1_death_clears_only_combat_target defaultLCConfig [deadAvaC1, targeterBobC1]
    emptyLCState 0 1 (by decide) (by decide)
  exact ⟨h.1 (by decide), h.2.2.1.trans (by decide), h.2.2.2.trans (by decide)⟩

/-- The acting combatant of the C6 scenario, at the origin. -/
def dwarfC6 : Dwarf :=
  { defaultDwarf with
      name := "Dorf", gender := "male", isAdult := true, health := some 100 }

/-- An eligible target at distance 30 — inside `2 × attackRange` (40) but
outside `attackRange` (20); listed first in the population. -/
def farTargetC6 : Dwarf :=
  { defaultDwarf with name := "Faraway", gender := "female", isAdult := true, x := 30
                      health := some 100 }

/-- An eligible target at distance 10 — the nearest, inside `attackRange`
(20); listed last in the population. -/
def nearTargetC6 : Dwarf :=
  { defaultDwarf with name := "Close", gender := "female", isAdult := true, x := 10
                      health := some 100 }

/-- C6, failing input: with both targets eligible (random-combat rolls
succeed with the constant-zero stream), the nearest eligible target
(Close, distance 10, within `attackRange`) should be engaged with an
immediate attack — instead the engine takes `potentialTargets[0]`, which
is the first-listed Faraway at distance 30, finds it out of attack range,
and (since it is not the agent's current `combatTarget`) does nothing at
all: the population and system state come back unchanged. -/
theorem C6_engages_first_listed_not_nearest :
    distLe dwarfC6 nearTargetC6 defaultLCConfig.attackRange = true ∧
    distLt dwarfC6 nearTargetC6 (defaultLCConfig.attackRange * 2) = true ∧
    calculateDistanceSq dwarfC6 nearTargetC6 < calculateDistanceSq dwarfC6 farTargetC6 ∧
    (filterCombatTargets defaultLCConfig dwarfC6 0
      (getNearbyDwarfs dwarfC6 0 (defaultLCConfig.attackRange * 2)
        [dwarfC6, farTargetC6, nearTargetC6]) (fun _ => 0) 0).1 =
      [(1, farTargetC6), (2, nearTargetC6)] ∧
    handleCombatBehavior defaultLCConfig (fun _ => 0) 0 [dwarfC6, farTargetC6, nearTargetC6]
        emptyLCState (fun _ => 0) 0 =
      ([dwarfC6, farTargetC6, nearTargetC6], emptyLCState, 2) := by decide

/-- C10: an agent whose health is unset or ≤ 0 at the start of its
per-tick vitality update is skipped — the update returns with the
population, system state and random stream untouched — and an agent that
comes out of its update newly flagged dead must have entered it with
strictly positive health. -/
theorem C10_nonpositive_health_skipped (cfg : LCConfig) (sqrtQ : ℚ → ℚ) (i : ℕ)
    (pop : List Dwarf) (sys : LCState) (rng : ℕ → ℚ) (k : ℕ) :
    (((pop.getD i defaultDwarf).health = none ∨
        ∃ h : ℚ, (pop.getD i defaultDwarf).health = some h ∧ h ≤ 0) →
      updateDwarf cfg sqrtQ i pop sys rng k = (pop, sys, k)) ∧
    ((((updateDwarf cfg sqrtQ i pop sys rng k).1.getD i defaultDwarf).isDead = true ∧
        (pop.getD i defaultDwarf).isDead = false) →
      ∃ h : ℚ, (pop.getD i defaultDwarf).health = some h ∧ 0 < h) := by
  have skip : ∀ (hc : (jsFalsyNum (pop.getD i defaultDwarf).health ||
      jsLeZero (pop.getD i defaultDwarf).health) = true),
      updateDwarf cfg sqrtQ i pop sys rng k = (pop, sys, k) := by
    intro hc
    unfold updateDwarf
    simp only [hc]
    simp
  constructor
  · intro hcase
    apply skip
    rcases hcase with hn | ⟨h, hh, hle⟩
    · rw [hn]
      rfl
    · rw [hh]
      simp [jsFalsyNum, jsLeZero, hle]
  · rintro ⟨hdead, hnot⟩
    by_cases hc : (jsFalsyNum (pop.getD i defaultDwarf).health ||
        jsLeZero (pop.getD i defaultDwarf).health) = true
    · rw [skip hc] at hdead
      exact absurd hdead (by simpa using hnot)
    · cases hv : (pop.getD i defaultDwarf).health with
      | none => exact absurd hc (by rw [hv]; simp [jsFalsyNum])
      | some h =>
        rw [hv] at hc
        simp only [jsFalsyNum, jsLeZero, Bool.or_eq_true, decide_eq_true_eq, not_or] at hc
        exact ⟨h, rfl, lt_of_not_le hc.2⟩

/-- An agent entering its update with health already at 0. -/
def deadEntryC10 : Dwarf :=
  { defaultDwarf with name := "Zed", gender := "male", isAdult := true, health := some 0 }

/-- C10, witness: the skip applied to a one-agent population whose agent
has health 0 — nothing changes. -/
theorem C10_nonpositive_health_skipped_witness :
    updateDwarf defaultLCConfig (fun _ => 0) 0 [deadEntryC10] emptyLCState (fun _ => 0) 0 =
      ([deadEntryC10], emptyLCState, 0) :=
  (C10_nonpositive_health_skipped defaultLCConfig (fun _ => 0) 0 [deadEntryC10] emptyLCState
    (fun _ => 0) 0).1 (Or.inr ⟨0, by decide, by decide⟩)

/-- C9, witness: the amended soundness statement instantiated at the
default `REPRODUCTION_CONFIG`, whose validation succeeds. -/
theorem C9_validation_soundness_witness :
    (0 < REPRODUCTION_CONFIG.MATING_SUCCESS_RATE ∧
      REPRODUCTION_CONFIG.MATING_SUCCESS_RATE ≤ 1) ∧
    (0 < REPRODUCTION_CONFIG.FEMALE_REPRODUCTION_COOLDOWN ∧
      isIntegerQ REPRODUCTION_CONFIG.FEMALE_REPRODUCTION_COOLDOWN = true) ∧
    (0 < REPRODUCTION_CONFIG.MALE_REPRODUCTION_COOLDOWN ∧
      isIntegerQ REPRODUCTION_CONFIG.MALE_REPRODUCTION_COOLDOWN = true) ∧
    (0 < REPRODUCTION_CONFIG.ORANGE_STRATEGY.cooldown ∧
      0 < REPRODUCTION_CONFIG.BLUE_STRATEGY.cooldown ∧
      0 < REPRODUCTION_CONFIG.YELLOW_STRATEGY.cooldown) ∧
    (0 < REPRODUCTION_CONFIG.ORANGE_STRATEGY.matingChance ∧
      REPRODUCTION_CONFIG.ORANGE_STRATEGY.matingChance ≤ 1) ∧
    (0 < REPRODUCTION_CONFIG.BLUE_STRATEGY.matingChance ∧
      REPRODUCTION_CONFIG.BLUE_STRATEGY.matingChance ≤ 1) ∧
    (0 < REPRODUCTION_CONFIG.YELLOW_STRATEGY.matingChance ∧
      REPRODUCTION_CONFIG.YELLOW_STRATEGY.matingChance ≤ 1) :=
  C9_validation_soundness REPRODUCTION_CONFIG (by decide)

end DorfLife
